import Mathlib

/-!
Verification of the poster-wall display engine (`web/app.js`).

This file shallowly embeds the display engine of the poster-wall kiosk:
configuration normalization (`loadCfg`), the relative-URL resolver (`prox`),
the paged catalog fetch loop (`fetchItems`), the crossfade swap with
preload-before-reveal (`swap`/`preload`/`applyDim`), the auto-dim brightness
analysis (`computeBrightness`/`shouldDim`), the now-playing poll
(`checkNowPlaying`), the display-mode state machine (the poll tick of
`startNowPlayingMonitor` together with `showNowPlaying`/`showRotation`),
and the rotation scheduler's timer management (`startRotation`).

Modelling conventions:
- JavaScript numbers are modelled as `ℚ` (exact rationals); byte values from
  canvas image data as `ℕ`.
- The DOM surfaces (`<img class="poster">` elements) are modelled as records
  of their observable fields (`src`, the `visible` class, the `dim` class).
- Network behaviour is a parameter: a function from request offset to the
  upstream's response, so theorems quantify over every upstream behaviour.
- `setInterval`/`clearInterval` are modelled by an explicit timer-system
  state (fresh-id counter plus the list of outstanding timer ids).
-/

namespace PosterWall

/-! ### ConfigLoader (`loadCfg`, app.js lines 35-62)

Only the `rotateSec` normalization (line 45) is needed by the claims:
`rotateSec: Math.max(3, Number(j.rotateSec) || 10)`.

A raw JSON field is either missing (`undefined`), a numeric value, or a
value whose JavaScript `Number(...)` coercion is `NaN` (e.g. a non-numeric
string).  `Number(undefined)` is `NaN`; `NaN || 10` and `0 || 10` both
evaluate to `10` (`NaN` and `0` are falsy); `Math.max` then applies the
floor of 3. -/

/-- A raw `rotateSec` field as found in the configuration JSON document. -/
inductive RawRotate where
  /-- the field is absent (`undefined`) -/
  | missing
  /-- the field coerces to the numeric value `q` -/
  | num (q : ℚ)
  /-- the field's `Number(...)` coercion is `NaN` (non-numeric input) -/
  | nonNumeric
deriving DecidableEq

/-- `Number(j.rotateSec)` — `none` stands for `NaN`. -/
def rawToNumber : RawRotate → Option ℚ
  | .missing => none
  | .num q => some q
  | .nonNumeric => none

/-- `Math.max(3, Number(j.rotateSec) || 10)` (app.js line 45). -/
def normRotateSec (r : RawRotate) : ℚ :=
  max 3 (match rawToNumber r with
    | none => 10
    | some q => if q = 0 then 10 else q)

/-! ### The resolver `prox` (app.js lines 73-77) and `proxyBase` (line 13)

```js
function proxyBase(){ return `${location.protocol}//${location.hostname}:8811`; }
function prox(u){
  if (!u) return u;
  if (/^https?:\/\//i.test(u)) return u;
  return proxyBase() + u;
}
```
The regex test is a case-insensitive anchored match of `http://` or
`https://`; it is embedded as a character-by-character case-insensitive
pattern match. -/

/-- Case-insensitive anchored pattern match: does the input (second list)
start with the pattern (first list), comparing characters through
`Char.toLower`? -/
def matchCI : List Char → List Char → Bool
  | [], _ => true
  | _ :: _, [] => false
  | p :: ps, c :: cs => (c.toLower == p.toLower) && matchCI ps cs

/-- `/^https?:\/\//i.test(u)` (app.js line 75). -/
def isHttpUrl (u : String) : Bool :=
  matchCI "http://".data u.data || matchCI "https://".data u.data

/-- `proxyBase()` (app.js line 13): `location.protocol` already carries the
trailing colon (`"http:"` / `"https:"`). -/
def proxyBase (protocol hostname : String) : String :=
  protocol ++ "//" ++ hostname ++ ":8811"

/-- `prox` (app.js lines 73-77); `base` is the value of `proxyBase()`.
An empty string is the falsy string value, returned unchanged. -/
def prox (base u : String) : String :=
  if u = "" then u
  else if isHttpUrl u then u
  else base ++ u

/-! ### CatalogFetcher (`fetchItems`, app.js lines 80-132)

The upstream behaviour is a function from the request offset (`start`) to
the response for that page request.  A response is either a successful
2xx answer carrying the parsed `items` array (`j.items || []` gives `[]`
when the field is absent), a non-2xx HTTP status, or a transport-level
failure (the `fetch` rejection whose message contains `"fetch"`, mapped by
the `catch` block at lines 119-124). -/

/-- One upstream response to a catalog page request. -/
inductive PageResp (α : Type) where
  /-- `r.ok` with parsed body: the `items` array (possibly empty) -/
  | ok (items : List α)
  /-- a non-2xx HTTP status -/
  | err (code : ℕ)
  /-- transport-level failure (rejected `fetch`) -/
  | netfail
deriving DecidableEq

/-- The error taxonomy of the catalog fetch (§7 of the design): each
constructor corresponds to one `throw new Error(...)` site in
`fetchItems`. -/
inductive FetchErr where
  /-- 401: "Plex authentication failed." -/
  | AuthFailed
  /-- 404: "Plex section ... not found." -/
  | SectionNotFound
  /-- 400 with missing Plex URL or token: "Plex configuration incomplete." -/
  | ConfigIncomplete
  /-- 400 with credentials present: "Invalid request." -/
  | InvalidRequest
  /-- status ≥ 500: "Plex server error." -/
  | UpstreamFailure
  /-- any other non-ok status: "Movies service error." -/
  | OtherStatus
  /-- transport failure: "Unable to connect to movies service." -/
  | ConnectivityFailure
  /-- zero items accumulated: "No movies found in the specified Plex section." -/
  | EmptyCatalog
deriving DecidableEq

/-- The `if (!r.ok)` chain of `fetchItems` (app.js lines 95-111), mapping a
non-2xx status to an error.  `!cfg.plexUrl` / `!cfg.plexToken` are the
string-falsiness tests, i.e. emptiness. -/
def statusErr (plexUrl plexToken : String) (code : ℕ) : FetchErr :=
  if code = 401 then .AuthFailed
  else if code = 404 then .SectionNotFound
  else if code = 400 then
    (if plexUrl = "" ∨ plexToken = "" then .ConfigIncomplete else .InvalidRequest)
  else if 500 ≤ code then .UpstreamFailure
  else .OtherStatus

/-- The `while (true)` paging loop of `fetchItems` (app.js lines 86-125),
started at offset `start` (the code starts it at 0).  Returns the list of
request offsets actually issued together with the outcome (the accumulated
items, or the first error).  The loop stops on a page with fewer than
`PAGE_SIZE = 500` items, or — after advancing the offset — when the new
offset exceeds the 50000 safety guard (line 118). -/
def fetchLoop {α : Type} (plexUrl plexToken : String) (resp : ℕ → PageResp α)
    (start : ℕ) : List ℕ × Except FetchErr (List α) :=
  match resp start with
  | .netfail => ([start], .error .ConnectivityFailure)
  | .err code => ([start], .error (statusErr plexUrl plexToken code))
  | .ok batch =>
    if batch.length < 500 then ([start], .ok batch)
    else if _hceil : 50000 < start + 500 then ([start], .ok batch)
    else
      let rest := fetchLoop plexUrl plexToken resp (start + 500)
      (start :: rest.1, rest.2.map (fun tail => batch ++ tail))
termination_by 50500 - start
decreasing_by omega

/-- `fetchItems` (app.js lines 80-132): run the paging loop from offset 0
and fail with `EmptyCatalog` when it succeeds with zero accumulated items
(lines 127-129). -/
def fetchItems {α : Type} (plexUrl plexToken : String) (resp : ℕ → PageResp α) :
    Except FetchErr (List α) :=
  match (fetchLoop plexUrl plexToken resp 0).2 with
  | .error e => .error e
  | .ok out => if out.length = 0 then .error .EmptyCatalog else .ok out

/-- An upstream that always answers successfully with the pages given by
`pages`. -/
def okResp {α : Type} (pages : ℕ → List α) : ℕ → PageResp α :=
  fun start => .ok (pages start)

/-! ### BrightnessAnalyzer (`computeBrightness` lines 274-295, `shouldDim` line 296)

`computeBrightness` downsamples the artwork onto a 32×32 canvas and
averages the per-sample luma `0.299*r + 0.587*g + 0.114*b` over the
`w*h = 1024` samples.  The embedding takes the downsampled grid (the RGBA
byte array with the alpha byte dropped, i.e. the 1024 RGB samples) as
input; the float weights are the exact rationals 299/1000 etc. -/

/-- One RGB sample of the 32×32 downsampled grid (bytes of the canvas
`getImageData` array, alpha ignored by the loop's stride of 4). -/
structure Pix where
  r : ℕ
  g : ℕ
  b : ℕ
deriving DecidableEq

/-- Per-sample luma `0.299*r + 0.587*g + 0.114*b` (app.js line 288). -/
def luma (p : Pix) : ℚ :=
  (299 * p.r + 587 * p.g + 114 * p.b : ℚ) / 1000

/-- `computeBrightness` (app.js lines 274-295): average luma over the
32×32 grid, `sum / (w*h)`. -/
def computeBrightness (grid : List Pix) : ℚ :=
  (grid.map luma).sum / (32 * 32)

/-- `shouldDim` (app.js line 296): `return avgLuma >= 200;`. -/
def shouldDim (avgLuma : ℚ) : Bool :=
  decide (200 ≤ avgLuma)

/-! ### CrossfadeTransitionEngine (`preload` lines 299-306, `applyDim` lines
308-316, `swap` lines 318-330)

A render surface is one of the two `<img class="poster">` elements; its
observable state is its `src` attribute and its `visible` / `dim` CSS
classes.  `front`/`back` are module-level references into the pair,
modelled by a role flag `frontIsA`.

`preload(src)` resolves iff the image at `src` loads; the environment
`loadOk : String → Bool` says which sources load.  `computeBrightness`
always resolves (its `onerror` resolves with 0), so the environment
`bright : String → ℚ` is total and `applyDim`'s `catch` is unreachable. -/

/-- Observable state of one poster surface. -/
structure Surface where
  /-- the `src` attribute -/
  src : String
  /-- membership of the `visible` class -/
  visible : Bool
  /-- membership of the `dim` class -/
  dim : Bool
deriving DecidableEq

/-- The pair of poster surfaces plus the front/back role flag
(`let front = imgA, back = imgB` at app.js line 10: `frontIsA = true`
initially). -/
structure Surfaces where
  a : Surface
  b : Surface
  frontIsA : Bool
deriving DecidableEq

/-- The surface currently playing the `front` role. -/
def Surfaces.front (s : Surfaces) : Surface :=
  if s.frontIsA then s.a else s.b

/-- The surface currently playing the `back` role. -/
def Surfaces.back (s : Surfaces) : Surface :=
  if s.frontIsA then s.b else s.a

/-- Update the surface playing the `front` role. -/
def Surfaces.updFront (s : Surfaces) (f : Surface → Surface) : Surfaces :=
  if s.frontIsA then { s with a := f s.a } else { s with b := f s.b }

/-- Update the surface playing the `back` role. -/
def Surfaces.updBack (s : Surfaces) (f : Surface → Surface) : Surfaces :=
  if s.frontIsA then { s with b := f s.b } else { s with a := f s.a }

/-- `applyDim(el, enabled, src)` (app.js lines 308-316) as a pure update of
one surface: when disabled, remove `dim`; otherwise add or remove `dim`
according to `shouldDim(computeBrightness(src))`, with the brightness of a
source given by the environment `bright`. -/
def applyDim (enabled : Bool) (bright : String → ℚ) (src : String)
    (el : Surface) : Surface :=
  if enabled = false then { el with dim := false }
  else if shouldDim (bright src) then { el with dim := true }
  else { el with dim := false }

/-- `swap(cfg, src)` (app.js lines 318-330).  `loadOk psrc` tells whether
`preload(psrc)` resolves.  On success: set the back surface's `src`, apply
auto-dim to it, then (inside `requestAnimationFrame`) hide the front
surface, reveal the back surface, and exchange the roles.  On failure the
`.catch(()=>{})` ignores the error, so only the initial
`back.classList.remove('visible')` has happened. -/
def swap (autoDim : Bool) (base : String) (loadOk : String → Bool)
    (bright : String → ℚ) (src : String) (s : Surfaces) : Surfaces :=
  let s1 := s.updBack (fun el => { el with visible := false })
  let psrc := prox base src
  if loadOk psrc then
    let s2 := s1.updBack (fun el => { el with src := psrc })
    let s3 := s2.updBack (applyDim autoDim bright psrc)
    let s4 := s3.updFront (fun el => { el with visible := false })
    let s5 := s4.updBack (fun el => { el with visible := true })
    { s5 with frontIsA := !s5.frontIsA }
  else s1

/-! ### Icon mapping helpers (app.js lines 135-196)

`data.videoResolution` etc. may be absent (`undefined`); an absent value,
the empty string and `'N/A'` all fail the initial truthiness/`'N/A'`
check.  Object lookups `map[key] || fallback` are embedded as string
matches with a default branch. -/

/-- Substring helper for JavaScript `String.prototype.includes`: anchored
(case-sensitive, exact) match of `pat` at the head of `s`. -/
def headMatch : List Char → List Char → Bool
  | [], _ => true
  | _ :: _, [] => false
  | p :: ps, c :: cs => (p == c) && headMatch ps cs

/-- `s.includes(pat)` for strings, on the underlying character lists. -/
def strContains (s pat : String) : Bool :=
  go s.data
where
  /-- try the anchored match at every suffix of the subject -/
  go : List Char → Bool
  | [] => headMatch pat.data []
  | c :: cs => headMatch pat.data (c :: cs) || go cs

/-- `getContentRatingIcon` (app.js lines 135-155): total, falls back to the
`Rated-NA` icon for missing/unknown ratings. -/
def getContentRatingIcon (rating : Option String) : String :=
  match rating with
  | none => "info-icons/Rated-NA.png"
  | some r =>
    if r = "" ∨ r = "N/A" then "info-icons/Rated-NA.png"
    else match r with
      | "TV-Y" => "info-icons/Rated-TVY.png"
      | "TV-Y7" => "info-icons/Rated-TVY7.png"
      | "TV-Y7 FV" => "info-icons/Rated-TVY7.png"
      | "G" => "info-icons/Rated-G.png"
      | "TV-G" => "info-icons/Rated-TVG.png"
      | "PG" => "info-icons/Rated-PG.png"
      | "TV-PG" => "info-icons/Rated-TVPG.png"
      | "PG-13" => "info-icons/Rated-PG13.png"
      | "TV-14" => "info-icons/Rated-TV14.png"
      | "R" => "info-icons/Rated-R.png"
      | "TV-MA" => "info-icons/Rated-TVMA.png"
      | "NC-17" => "info-icons/Rated-NC17.png"
      | "XXX" => "info-icons/Rated-XXX.png"
      | _ => "info-icons/Rated-NA.png"

/-- `getVideoResolutionIcon` (app.js lines 157-171): `null` (here `none`)
for missing/unknown resolutions; lookup on the lowercased key. -/
def getVideoResolutionIcon (resolution : Option String) : Option String :=
  match resolution with
  | none => none
  | some r =>
    if r = "" ∨ r = "N/A" then none
    else match r.toLower with
      | "sd" => some "info-icons/Res-SD.png"
      | "720" => some "info-icons/Res-HD720.png"
      | "720p" => some "info-icons/Res-HD720.png"
      | "1080" => some "info-icons/Res-HD1080.png"
      | "1080p" => some "info-icons/Res-HD1080.png"
      | "4k" => some "info-icons/Res-UHD4K.png"
      | "8k" => some "info-icons/Res-UHD8K.png"
      | _ => none

/-- `getAudioChannelIcon` (app.js lines 173-196): the `includes('5.1')` /
`includes('6.1')` checks run before the lowercased map lookup (whose own
`'5.1'`/`'6.1'` entries are therefore unreachable, kept for fidelity). -/
def getAudioChannelIcon (channels : Option String) : Option String :=
  match channels with
  | none => none
  | some c =>
    if c = "" ∨ c = "N/A" then none
    else if strContains c "5.1" then some "info-icons/Sound-5.1.png"
    else if strContains c "6.1" then some "info-icons/Sound-5.1.png"
    else match c.toLower with
      | "mono" => some "info-icons/Sound-Mono.png"
      | "stereo" => some "info-icons/Sound-2.0.png"
      | "2.0" => some "info-icons/Sound-2.0.png"
      | "5.1" => some "info-icons/Sound-5.1.png"
      | "6.1" => some "info-icons/Sound-5.1.png"
      | "7.1" => some "info-icons/Dolby_TRUEHD71.png"
      | _ => none

/-! ### NowPlayingMonitor (`checkNowPlaying`, app.js lines 337-359) -/

/-- A now-playing snapshot as parsed from `/api/now-playing` (the fields
`showNowPlaying` and the poll tick read). -/
structure Snapshot where
  playing : Bool
  progress : Option ℚ
  poster : Option String
  videoResolution : Option String
  audioChannels : Option String
  rating : Option String
deriving DecidableEq

/-- `{ playing: false }` — the inert / fail-open snapshot. -/
def notPlayingSnap : Snapshot :=
  { playing := false, progress := none, poster := none,
    videoResolution := none, audioChannels := none, rating := none }

/-- One upstream response to the now-playing poll request. -/
inductive NPResp where
  /-- 2xx with parsed snapshot body -/
  | ok (snap : Snapshot)
  /-- non-2xx HTTP status (`!r.ok`, logged with `console.warn`) -/
  | err (code : ℕ)
  /-- transport-level failure (caught, logged with `console.warn`) -/
  | netfail

/-- `checkNowPlaying(cfg)` (app.js lines 337-359).  The second component
records whether a network call was issued: with no monitored devices the
function returns `{ playing: false }` before any `fetch`.  Every failure
path also yields `{ playing: false }`; the function never throws. -/
def checkNowPlaying (plexDevices : List String) (resp : NPResp) :
    Snapshot × Bool :=
  if plexDevices = [] then (notPlayingSnap, false)
  else match resp with
    | .ok snap => (snap, true)
    | .err _ => (notPlayingSnap, true)
    | .netfail => (notPlayingSnap, true)

/-! ### DisplayModeController (app.js lines 361-426 and 463-477)

The observable state mutated by `showNowPlaying` / `showRotation` / the
poll tick: the rotation stage's `display` style, the overlay's `visible`
class, the overlay title text, the progress-bar width, the overlay poster
`src`, the metadata icon list, and the `currentMode` variable.  All the
referenced DOM elements exist in the page, so the `if (el)` guards are
taken as satisfied. -/

/-- `currentMode` (app.js line 335). -/
inductive Mode where
  | rotation
  | nowplaying
deriving DecidableEq

/-- Observable display state owned by the mode controller. -/
structure DisplayState where
  mode : Mode
  /-- `stage.style.display` is `'block'` (true) or `'none'` (false) -/
  stageShown : Bool
  /-- the overlay's `visible` class -/
  overlayShown : Bool
  /-- `nowShowingTitle.textContent` -/
  title : String
  /-- `nowShowingProgressBar.style.width` in percent -/
  progressWidth : ℚ
  /-- `nowShowingPoster.src` -/
  npPosterSrc : String
  /-- the icon images inside `nowShowingMetadataIcons` -/
  icons : List String
deriving DecidableEq

/-- The icon list built by `showNowPlaying` (app.js lines 386-412):
resolution icon and audio icon when available, then the rating icon
(always present, `getContentRatingIcon` never returns an empty path). -/
def npIcons (d : Snapshot) : List String :=
  (match getVideoResolutionIcon d.videoResolution with
    | some v => [v]
    | none => [])
  ++ (match getAudioChannelIcon d.audioChannels with
    | some a => [a]
    | none => [])
  ++ [getContentRatingIcon d.rating]

/-- `showNowPlaying(data, cfg)` (app.js lines 361-417).  `nowShowingText`
is `cfg.nowShowingText`; `data.progress || 0` is `Option.getD 0` (a present
0 is falsy and also yields 0); the poster `src` is only written when
`data.poster` is truthy (present and non-empty). -/
def showNowPlayingUpd (nowShowingText : String) (base : String) (d : Snapshot)
    (s : DisplayState) : DisplayState :=
  { s with
    stageShown := false
    title := nowShowingText
    progressWidth := d.progress.getD 0
    npPosterSrc := match d.poster with
      | some p => if p = "" then s.npPosterSrc else prox base p
      | none => s.npPosterSrc
    icons := npIcons d
    overlayShown := true
    mode := Mode.nowplaying }

/-- `showRotation()` (app.js lines 419-426). -/
def showRotationUpd (s : DisplayState) : DisplayState :=
  { s with overlayShown := false, stageShown := true, mode := Mode.rotation }

/-- One tick of the now-playing poll (the `setInterval` callback of
`startNowPlayingMonitor`, app.js lines 463-477), applied to the snapshot
`d` returned by `checkNowPlaying`. -/
def pollTick (nowShowingText base : String) (d : Snapshot) (s : DisplayState) :
    DisplayState :=
  if d.playing = true ∧ s.mode = Mode.rotation then
    showNowPlayingUpd nowShowingText base d s
  else if d.playing = false ∧ s.mode = Mode.nowplaying then
    showRotationUpd s
  else if d.playing = true ∧ s.mode = Mode.nowplaying then
    { s with progressWidth := d.progress.getD 0 }
  else s

/-! ### RotationScheduler (`startRotation`, app.js lines 428-453)

`setInterval` / `clearInterval` are modelled by an explicit timer system:
a fresh-id counter and the list of outstanding timer ids.
`rotationInterval` (app.js line 333) holds the id of the armed rotation
timer, or `none`.  The in-place Fisher–Yates shuffle (line 438) draws from
`Math.random`; it is modelled as a parameter `shuffle` (for any actual run
it is a permutation of its input).  The priming of the first poster
(lines 442-447) writes the front surface. -/

/-- A catalog item; only the `poster` artwork reference is used by the
rotation/transition code. -/
structure CatalogItem where
  poster : String
deriving DecidableEq, Inhabited

/-- Outstanding `setInterval` timers: a fresh-id counter plus the list of
ids not yet cleared. -/
structure TimerSys where
  nextId : ℕ
  active : List ℕ
deriving DecidableEq

/-- `setInterval(...)`: returns a fresh timer id and registers it. -/
def setIntervalT (t : TimerSys) : ℕ × TimerSys :=
  (t.nextId, { nextId := t.nextId + 1, active := t.active ++ [t.nextId] })

/-- `clearInterval(id)`: deregisters the id. -/
def clearIntervalT (t : TimerSys) (tid : ℕ) : TimerSys :=
  { t with active := t.active.filter (fun i => i != tid) }

/-- The rotation scheduler's state: the two poster surfaces, the timer
system, and the `rotationInterval` variable (app.js line 333). -/
structure AppState where
  surf : Surfaces
  timers : TimerSys
  rotTimer : Option ℕ
deriving DecidableEq

/-- The state at script start: `front = imgA`, both surfaces hidden, no
timers, `rotationInterval = null`. -/
def initAppState : AppState :=
  { surf := { a := { src := "", visible := false, dim := false },
              b := { src := "", visible := false, dim := false },
              frontIsA := true },
    timers := { nextId := 0, active := [] },
    rotTimer := none }

/-- `startRotation(cfg, list)` (app.js lines 428-453): no-op on an empty
list; otherwise clear a previously armed rotation timer, shuffle, prime the
front surface with the first shuffled item (set `src`, apply auto-dim, add
`visible`), and arm a fresh interval timer.  `(shuffle list).headD default`
is `list[0]` after the in-place shuffle (the list is non-empty and an
actual shuffle is a permutation, so the default is never consulted). -/
def startRotation (autoDim : Bool) (base : String) (bright : String → ℚ)
    (shuffle : List CatalogItem → List CatalogItem)
    (list : List CatalogItem) (s : AppState) : AppState :=
  if list.length = 0 then s
  else
    let s1 : AppState :=
      match s.rotTimer with
      | some tid => { s with timers := clearIntervalT s.timers tid,
                             rotTimer := none }
      | none => s
    let first := (shuffle list).headD default
    let firstSrc := prox base first.poster
    let s2 := { s1 with surf :=
      (s1.surf.updFront (fun el => { el with src := firstSrc })) }
    let s3 := { s2 with surf :=
      (s2.surf.updFront (applyDim autoDim bright firstSrc)) }
    let s4 := { s3 with surf :=
      (s3.surf.updFront (fun el => { el with visible := true })) }
    let armed := setIntervalT s4.timers
    { s4 with timers := armed.2, rotTimer := some armed.1 }

/-- The arguments of one `startRotation` invocation (used to quantify over
arbitrary call sequences). -/
structure RotCall where
  autoDim : Bool
  base : String
  bright : String → ℚ
  shuffle : List CatalogItem → List CatalogItem
  items : List CatalogItem

/-- Run a sequence of `startRotation` invocations from a state. -/
def runRotCalls (calls : List RotCall) (s : AppState) : AppState :=
  calls.foldl
    (fun st c => startRotation c.autoDim c.base c.bright c.shuffle c.items st)
    s

/-- The timer invariant maintained by the scheduler: the outstanding timers
are exactly the one recorded in `rotationInterval` (so at most one), and
any recorded id is older than the fresh-id counter. -/
def TimerInv (s : AppState) : Prop :=
  s.timers.active = s.rotTimer.toList ∧
    (∀ tid ∈ s.rotTimer.toList, tid < s.timers.nextId)

instance (s : AppState) : Decidable (TimerInv s) := by
  unfold TimerInv; infer_instance

/-- `init()` (app.js lines 489-519), restricted to the catalog/rotation
path: a failing catalog fetch is caught and surfaces the error (the error
panel), so `startRotation` is reached only on success. -/
def bootInit (plexUrl plexToken : String) (resp : ℕ → PageResp CatalogItem)
    (autoDim : Bool) (base : String) (bright : String → ℚ)
    (shuffle : List CatalogItem → List CatalogItem) (s : AppState) :
    AppState × Option FetchErr :=
  match fetchItems plexUrl plexToken resp with
  | .error e => (s, some e)
  | .ok items => (startRotation autoDim base bright shuffle items s, none)

/-! ## Theorems -/

/-! ### C3 — rotation interval normalization -/

/-- **C3.** For every raw configuration `rotateSec` value (including 0,
negative, missing, or non-numeric), the normalized effective rotation
interval is at least 3, and a missing or non-numeric value defaults
to 10. -/
theorem rotateSec_normalized :
    (∀ r : RawRotate, 3 ≤ normRotateSec r) ∧
    normRotateSec RawRotate.missing = 10 ∧
    normRotateSec RawRotate.nonNumeric = 10 := by
  refine ⟨fun r => le_max_left 3 _, by decide, by decide⟩

/-! ### C10 — idempotence of the artwork-reference resolver -/

/-- A successful anchored case-insensitive match survives extending the
subject on the right. -/
theorem matchCI_append (pat : List Char) :
    ∀ x y : List Char, matchCI pat x = true → matchCI pat (x ++ y) = true := by
  induction pat with
  | nil => intro x y _; rfl
  | cons p ps ih =>
    intro x y h
    cases x with
    | nil => simp [matchCI] at h
    | cons c cs =>
      simp only [matchCI, Bool.and_eq_true] at h
      simpa [matchCI, h.1] using ih cs y h.2

/-- An absolute `http(s)://` URL stays absolute under right-extension. -/
theorem isHttpUrl_append (x y : String) (h : isHttpUrl x = true) :
    isHttpUrl (x ++ y) = true := by
  unfold isHttpUrl at h ⊢
  rw [String.data_append]
  rcases Bool.or_eq_true_iff.mp h with h1 | h1
  · exact Bool.or_eq_true_iff.mpr (Or.inl (matchCI_append _ _ _ h1))
  · exact Bool.or_eq_true_iff.mpr (Or.inr (matchCI_append _ _ _ h1))

/-- `proxyBase()` is an absolute URL for the `http:`/`https:` page
protocols. -/
theorem proxyBase_isHttpUrl (protocol hostname : String)
    (hp : protocol = "http:" ∨ protocol = "https:") :
    isHttpUrl (proxyBase protocol hostname) = true := by
  rcases hp with h | h <;> subst h
  · have hsplit : proxyBase "http:" hostname =
        "http://" ++ (hostname ++ ":8811") := by
      apply String.ext
      simp only [proxyBase, String.data_append]
      rw [← List.append_assoc]
      congr 1
    rw [hsplit]
    exact isHttpUrl_append _ _ (by decide)
  · have hsplit : proxyBase "https:" hostname =
        "https://" ++ (hostname ++ ":8811") := by
      apply String.ext
      simp only [proxyBase, String.data_append]
      rw [← List.append_assoc]
      congr 1
    rw [hsplit]
    exact isHttpUrl_append _ _ (by decide)

/-- **C10.** `prox` leaves the empty reference and already-absolute
references unchanged, prefixes the proxy base otherwise, and is therefore
idempotent: `prox (prox u) = prox u` for every input. -/
theorem prox_idempotent (protocol hostname u : String)
    (hp : protocol = "http:" ∨ protocol = "https:") :
    prox (proxyBase protocol hostname) "" = "" ∧
    prox (proxyBase protocol hostname)
        (prox (proxyBase protocol hostname) u) =
      prox (proxyBase protocol hostname) u := by
  have hbase := proxyBase_isHttpUrl protocol hostname hp
  constructor
  · simp [prox]
  · by_cases h1 : u = ""
    · simp [prox, h1]
    · by_cases h2 : isHttpUrl u
      · simp [prox, h1, h2]
      · have hres : prox (proxyBase protocol hostname) u =
            proxyBase protocol hostname ++ u := by
          simp [prox, h1, h2]
        rw [hres]
        have hne : proxyBase protocol hostname ++ u ≠ "" := by
          intro hE
          have hdata := congrArg String.data hE
          rw [String.data_append] at hdata
          have hb : (proxyBase protocol hostname).data = [] :=
            (List.append_eq_nil.mp hdata).1
          have hbempty : proxyBase protocol hostname = "" := String.ext hb
          rw [hbempty] at hbase
          exact absurd hbase (by decide)
        have habs : isHttpUrl (proxyBase protocol hostname ++ u) = true :=
          isHttpUrl_append _ _ hbase
        simp [prox, hne, habs]

/-- Witness for C10 at a concrete page protocol, hostname and relative
artwork reference. -/
theorem prox_idempotent_witness :
    (("http:" : String) = "http:" ∨ ("http:" : String) = "https:") ∧
    (prox (proxyBase "http:" "poster-wall.local") "" = "" ∧
     prox (proxyBase "http:" "poster-wall.local")
         (prox (proxyBase "http:" "poster-wall.local")
           "/library/metadata/42/thumb") =
       prox (proxyBase "http:" "poster-wall.local")
         "/library/metadata/42/thumb") :=
  ⟨Or.inl rfl,
   prox_idempotent "http:" "poster-wall.local" "/library/metadata/42/thumb"
     (Or.inl rfl)⟩

/-! ### C1 — failed preload leaves the visible surface untouched -/

/-- **C1.** When the preload of an artwork reference fails, `swap` leaves
the front (visible) surface completely unchanged — same `src`, same
visibility — keeps the front/back roles unswapped, and does not reveal the
back surface.  The role swap and the reveal happen only after a successful
preload. -/
theorem swap_fail_noop (autoDim : Bool) (base : String) (loadOk : String → Bool)
    (bright : String → ℚ) (src : String) (s : Surfaces)
    (hfail : loadOk (prox base src) = false) :
    (swap autoDim base loadOk bright src s).front = s.front ∧
    (swap autoDim base loadOk bright src s).frontIsA = s.frontIsA ∧
    (swap autoDim base loadOk bright src s).back.visible = false := by
  simp only [swap, hfail, Bool.false_eq_true, if_false]
  unfold Surfaces.updBack Surfaces.front Surfaces.back
  by_cases hf : s.frontIsA <;> simp [hf]

/-- Witness for C1: a loader on which every source fails, applied to a
state whose front surface is visible. -/
theorem swap_fail_noop_witness :
    ((fun _ : String => false) (prox "http://h:8811" "/img/a.jpg") = false) ∧
    ((swap false "http://h:8811" (fun _ => false) (fun _ => 0) "/img/a.jpg"
        ⟨⟨"http://h:8811/old.jpg", true, false⟩, ⟨"", false, false⟩, true⟩).front =
      (⟨⟨"http://h:8811/old.jpg", true, false⟩, ⟨"", false, false⟩, true⟩ :
        Surfaces).front ∧
     (swap false "http://h:8811" (fun _ => false) (fun _ => 0) "/img/a.jpg"
        ⟨⟨"http://h:8811/old.jpg", true, false⟩, ⟨"", false, false⟩, true⟩).frontIsA =
      (⟨⟨"http://h:8811/old.jpg", true, false⟩, ⟨"", false, false⟩, true⟩ :
        Surfaces).frontIsA ∧
     (swap false "http://h:8811" (fun _ => false) (fun _ => 0) "/img/a.jpg"
        ⟨⟨"http://h:8811/old.jpg", true, false⟩, ⟨"", false, false⟩, true⟩).back.visible =
      false) :=
  ⟨rfl,
   swap_fail_noop false "http://h:8811" (fun _ => false) (fun _ => 0)
     "/img/a.jpg"
     ⟨⟨"http://h:8811/old.jpg", true, false⟩, ⟨"", false, false⟩, true⟩ rfl⟩

/-! ### C7 — the now-playing poll is inert/fail-open -/

/-- **C7.** With no monitored devices the poll returns the not-playing
snapshot without a network call; with devices configured, a non-success
HTTP response or a transport failure also yields a not-playing snapshot
(the poll is total — it never throws). -/
theorem checkNowPlaying_failOpen (devices devices2 : List String)
    (r : NPResp) (code : ℕ) (h : devices = []) :
    checkNowPlaying devices r = (notPlayingSnap, false) ∧
    (checkNowPlaying devices2 (NPResp.err code)).1.playing = false ∧
    (checkNowPlaying devices2 NPResp.netfail).1.playing = false := by
  subst h
  refine ⟨by simp [checkNowPlaying], ?_, ?_⟩ <;>
    · unfold checkNowPlaying
      split
      · rfl
      · rfl

/-- Witness for C7: an empty device list on one side, a configured device
with a 503 response on the other. -/
theorem checkNowPlaying_failOpen_witness :
    (([] : List String) = []) ∧
    (checkNowPlaying [] NPResp.netfail = (notPlayingSnap, false) ∧
     (checkNowPlaying ["roku-living-room"] (NPResp.err 503)).1.playing = false ∧
     (checkNowPlaying ["roku-living-room"] NPResp.netfail).1.playing = false) :=
  ⟨rfl, checkNowPlaying_failOpen [] ["roku-living-room"] NPResp.netfail 503 rfl⟩

/-! ### C9 — auto-dim threshold is non-strict at 200 -/

/-- A uniform 32×32 grid whose every sample has luma exactly 200. -/
def gray200 : List Pix := List.replicate 1024 ⟨200, 200, 200⟩

/-- On a constant grid the average brightness is the per-sample luma. -/
theorem computeBrightness_replicate (p : Pix) :
    computeBrightness (List.replicate 1024 p) = luma p := by
  unfold computeBrightness
  rw [List.map_replicate, List.sum_replicate, nsmul_eq_mul]
  norm_num

/-- Counterexample to C9 as stated: at average luminance exactly 200 the
dimming treatment *is* applied although the average does not exceed
(strictly) the threshold — the code's comparison `avgLuma >= 200` is
non-strict. -/
theorem shouldDim_at_threshold :
    (applyDim true (fun _ => computeBrightness gray200) "p.jpg"
        ⟨"p.jpg", false, false⟩).dim = true ∧
    ¬ (200 < computeBrightness gray200) := by
  have h : computeBrightness gray200 = 200 := by
    rw [gray200, computeBrightness_replicate]
    norm_num [luma]
  constructor
  · unfold applyDim
    rw [h]
    norm_num [shouldDim]
  · rw [h]
    exact lt_irrefl 200

/-- **C9 (amended).** The auto-dim decision averages the per-sample luma
`0.299 R + 0.587 G + 0.114 B` over the 32×32 grid, and the dimming
treatment is applied exactly when the average is **at least** 200 (the
comparison is non-strict); at an average of exactly 200 the decision is
deterministic: the artwork is dimmed. -/
theorem autoDim_nonstrict_threshold :
    (∀ (grid : List Pix) (src : String) (el : Surface),
      (applyDim true (fun _ => computeBrightness grid) src el).dim = true ↔
        200 ≤ computeBrightness grid) ∧
    (∀ p : Pix, computeBrightness (List.replicate 1024 p) = luma p) ∧
    computeBrightness gray200 = 200 := by
  refine ⟨fun grid src el => ?_, computeBrightness_replicate, ?_⟩
  · unfold applyDim
    by_cases h : 200 ≤ computeBrightness grid <;> simp [shouldDim, h]
  · rw [gray200, computeBrightness_replicate]
    norm_num [luma]

/-! ### C4 — the display-mode state machine on
`[not-playing, playing, playing, not-playing]` -/

/-- **C4.** From the initial `Rotation` mode, the snapshot sequence
`[not-playing, playing, playing, not-playing]` drives the modes
`[Rotation, NowPlaying, NowPlaying, Rotation]`.  The not-playing tick in
`Rotation` is a strict no-op; the first playing tick performs the full
now-playing render (poster, metadata icons, title, progress); the second
playing tick changes nothing but the progress-bar width; the final
not-playing tick is exactly `showRotation`. -/
theorem modeMachine_sequence (txt base : String) (d1 d2 d3 d4 : Snapshot)
    (s0 : DisplayState) (h0 : s0.mode = Mode.rotation)
    (h1 : d1.playing = false) (h2 : d2.playing = true)
    (h3 : d3.playing = true) (h4 : d4.playing = false) :
    pollTick txt base d1 s0 = s0 ∧
    pollTick txt base d2 (pollTick txt base d1 s0) =
      showNowPlayingUpd txt base d2 s0 ∧
    (pollTick txt base d2 (pollTick txt base d1 s0)).mode = Mode.nowplaying ∧
    (pollTick txt base d2 (pollTick txt base d1 s0)).icons = npIcons d2 ∧
    pollTick txt base d3
        (pollTick txt base d2 (pollTick txt base d1 s0)) =
      { pollTick txt base d2 (pollTick txt base d1 s0) with
          progressWidth := d3.progress.getD 0 } ∧
    (pollTick txt base d3
        (pollTick txt base d2 (pollTick txt base d1 s0))).mode =
      Mode.nowplaying ∧
    pollTick txt base d4
        (pollTick txt base d3
          (pollTick txt base d2 (pollTick txt base d1 s0))) =
      showRotationUpd
        (pollTick txt base d3
          (pollTick txt base d2 (pollTick txt base d1 s0))) ∧
    (pollTick txt base d4
        (pollTick txt base d3
          (pollTick txt base d2 (pollTick txt base d1 s0)))).mode =
      Mode.rotation := by
  have step1 : pollTick txt base d1 s0 = s0 := by
    unfold pollTick
    simp [h0, h1]
  rw [step1]
  have step2 : pollTick txt base d2 s0 = showNowPlayingUpd txt base d2 s0 := by
    unfold pollTick
    simp [h0, h2]
  rw [step2]
  have hmode2 : (showNowPlayingUpd txt base d2 s0).mode = Mode.nowplaying := rfl
  have step3 : pollTick txt base d3 (showNowPlayingUpd txt base d2 s0) =
      { showNowPlayingUpd txt base d2 s0 with
          progressWidth := d3.progress.getD 0 } := by
    unfold pollTick
    simp [h3, hmode2]
  rw [step3]
  have hmode3 : ({ showNowPlayingUpd txt base d2 s0 with
      progressWidth := d3.progress.getD 0 }).mode = Mode.nowplaying := rfl
  have step4 : pollTick txt base d4
      { showNowPlayingUpd txt base d2 s0 with
          progressWidth := d3.progress.getD 0 } =
      showRotationUpd { showNowPlayingUpd txt base d2 s0 with
          progressWidth := d3.progress.getD 0 } := by
    unfold pollTick
    simp [h4, hmode2]
  rw [step4]
  exact ⟨rfl, rfl, hmode2, rfl, rfl, hmode3, rfl, rfl⟩

/-- A concrete playing snapshot used by the C4 witness. -/
def playingSnap : Snapshot :=
  { playing := true, progress := some 30, poster := some "/library/m/7/thumb",
    videoResolution := some "1080", audioChannels := some "5.1(side)",
    rating := some "R" }

/-- The C4 witness's later playing snapshot (different progress). -/
def playingSnap2 : Snapshot :=
  { playingSnap with progress := some 31 }

/-- The initial display state: rotation stage shown, overlay hidden. -/
def initDisplay : DisplayState :=
  { mode := Mode.rotation, stageShown := true, overlayShown := false,
    title := "", progressWidth := 0, npPosterSrc := "", icons := [] }

/-- Witness for C4 on concrete snapshots: the four poll ticks produce the
claimed mode sequence and render behaviour. -/
theorem modeMachine_sequence_witness :
    (initDisplay.mode = Mode.rotation ∧ notPlayingSnap.playing = false ∧
      playingSnap.playing = true ∧ playingSnap2.playing = true) ∧
    (pollTick "NOW SHOWING" "http://h:8811" notPlayingSnap initDisplay =
      initDisplay ∧
     pollTick "NOW SHOWING" "http://h:8811" playingSnap
        (pollTick "NOW SHOWING" "http://h:8811" notPlayingSnap initDisplay) =
      showNowPlayingUpd "NOW SHOWING" "http://h:8811" playingSnap initDisplay) :=
  ⟨⟨rfl, rfl, rfl, rfl⟩,
   by
    have h := modeMachine_sequence "NOW SHOWING" "http://h:8811"
      notPlayingSnap playingSnap playingSnap2 notPlayingSnap initDisplay
      rfl rfl rfl rfl rfl
    exact ⟨h.1, h.2.1⟩⟩

/-! ### C8 — at most one rotation timer is ever outstanding -/

/-- The timer invariant holds at script start. -/
theorem timerInv_init : TimerInv initAppState := by
  constructor
  · rfl
  · intro tid h
    simp [initAppState] at h

/-- Every `startRotation` invocation preserves the timer invariant: the
empty-list guard changes nothing, and otherwise the previously armed timer
(if any) is cleared before the fresh timer is armed. -/
theorem startRotation_preserves_timerInv (autoDim : Bool) (base : String)
    (bright : String → ℚ) (shuffle : List CatalogItem → List CatalogItem)
    (list : List CatalogItem) (s : AppState) (h : TimerInv s) :
    TimerInv (startRotation autoDim base bright shuffle list s) := by
  obtain ⟨hact, hlt⟩ := h
  unfold startRotation
  by_cases hl : list.length = 0
  · simpa [hl] using ⟨hact, hlt⟩
  · simp only [hl, if_false]
    cases hrt : s.rotTimer with
    | none =>
      rw [hrt] at hact
      constructor
      · simp [setIntervalT, hact]
      · intro tid htid
        simp [setIntervalT] at htid ⊢
        omega
    | some tid0 =>
      rw [hrt] at hact hlt
      constructor
      · simp [setIntervalT, clearIntervalT, hact]
      · intro tid htid
        simp [setIntervalT, clearIntervalT] at htid ⊢
        omega

/-- **C8.** After any sequence of `startRotation` invocations from the
initial state, at most one rotation timer is outstanding; moreover any
single invocation on a state satisfying the scheduler's timer invariant
with an armed timer `tid` and a non-empty catalog cancels `tid` before
arming the fresh timer, so `tid` is no longer outstanding afterwards. -/
theorem startRotation_single_timer (calls : List RotCall) (c : RotCall)
    (s : AppState) (hs : TimerInv s) (tid : ℕ) (htid : s.rotTimer = some tid)
    (hne : c.items.length ≠ 0) :
    (runRotCalls calls initAppState).timers.active.length ≤ 1 ∧
    tid ∉ (startRotation c.autoDim c.base c.bright c.shuffle c.items
        s).timers.active := by
  constructor
  · have key : ∀ (cs : List RotCall) (st : AppState), TimerInv st →
        TimerInv (runRotCalls cs st) := by
      intro cs
      induction cs with
      | nil => intro st hst; exact hst
      | cons c0 rest ih =>
        intro st hst
        exact ih _ (startRotation_preserves_timerInv _ _ _ _ _ _ hst)
    have hinv := key calls initAppState timerInv_init
    rw [hinv.1]
    cases (runRotCalls calls initAppState).rotTimer <;> simp
  · obtain ⟨hact, hlt⟩ := hs
    rw [htid] at hact hlt
    unfold startRotation
    simp only [hne, if_false]
    rw [htid]
    simp only [setIntervalT, clearIntervalT, hact]
    simp
    have := hlt tid (by simp)
    omega

/-- Witness for C8: two prior invocations, then one on a state holding the
armed timer 0 with a one-item catalog. -/
theorem startRotation_single_timer_witness :
    TimerInv { surf := initAppState.surf, timers := ⟨1, [0]⟩,
               rotTimer := some 0 } ∧
    ((runRotCalls [⟨false, "http://h:8811", fun _ => 0, id, [⟨"/a.jpg"⟩]⟩,
        ⟨false, "http://h:8811", fun _ => 0, id, [⟨"/b.jpg"⟩]⟩]
        initAppState).timers.active.length ≤ 1 ∧
      0 ∉ (startRotation false "http://h:8811" (fun _ => 0) id [⟨"/c.jpg"⟩]
        { surf := initAppState.surf, timers := ⟨1, [0]⟩,
          rotTimer := some 0 }).timers.active) :=
  ⟨by decide,
   startRotation_single_timer
     [⟨false, "http://h:8811", fun _ => 0, id, [⟨"/a.jpg"⟩]⟩,
      ⟨false, "http://h:8811", fun _ => 0, id, [⟨"/b.jpg"⟩]⟩]
     ⟨false, "http://h:8811", fun _ => 0, id, [⟨"/c.jpg"⟩]⟩
     { surf := initAppState.surf, timers := ⟨1, [0]⟩, rotTimer := some 0 }
     (by decide) 0 rfl (by decide)⟩

/-! ### Catalog fetch lemmas (for C2, C5, C6) -/

/-- One-step unfolding of the paging loop. -/
theorem fetchLoop_eq {α : Type} (pu pt : String) (resp : ℕ → PageResp α)
    (start : ℕ) :
    fetchLoop pu pt resp start =
      match resp start with
      | .netfail => ([start], .error .ConnectivityFailure)
      | .err code => ([start], .error (statusErr pu pt code))
      | .ok batch =>
        if batch.length < 500 then ([start], .ok batch)
        else if _hceil : 50000 < start + 500 then ([start], .ok batch)
        else
          let rest := fetchLoop pu pt resp (start + 500)
          (start :: rest.1, rest.2.map (fun tail => batch ++ tail)) := by
  rw [fetchLoop]

/-- Step lemma: a transport failure at the current offset stops the loop
with `ConnectivityFailure`. -/
theorem fetchLoop_netfail {α : Type} (pu pt : String)
    (resp : ℕ → PageResp α) (start : ℕ) (hE : resp start = .netfail) :
    fetchLoop pu pt resp start =
      ([start], .error .ConnectivityFailure) := by
  rw [fetchLoop_eq, hE]

/-- Step lemma: a non-2xx status at the current offset stops the loop with
the mapped error. -/
theorem fetchLoop_err {α : Type} (pu pt : String) (resp : ℕ → PageResp α)
    (start code : ℕ) (hE : resp start = .err code) :
    fetchLoop pu pt resp start =
      ([start], .error (statusErr pu pt code)) := by
  rw [fetchLoop_eq, hE]

/-- Step lemma: a short page (fewer than 500 items) stops the loop. -/
theorem fetchLoop_stop_short {α : Type} (pu pt : String)
    (resp : ℕ → PageResp α) (start : ℕ) (batch : List α)
    (hE : resp start = .ok batch) (hb : batch.length < 500) :
    fetchLoop pu pt resp start = ([start], .ok batch) := by
  rw [fetchLoop_eq, hE]
  simp only [if_pos hb]

/-- Step lemma: a full page stops the loop anyway once the next offset
would pass the 50000 safety guard. -/
theorem fetchLoop_stop_ceiling {α : Type} (pu pt : String)
    (resp : ℕ → PageResp α) (start : ℕ) (batch : List α)
    (hE : resp start = .ok batch) (hb : ¬ batch.length < 500)
    (hc : 50000 < start + 500) :
    fetchLoop pu pt resp start = ([start], .ok batch) := by
  rw [fetchLoop_eq, hE]
  simp only [if_neg hb, dif_pos hc]

/-- Step lemma: a full page within the ceiling accumulates and continues
at the next offset. -/
theorem fetchLoop_cont {α : Type} (pu pt : String) (resp : ℕ → PageResp α)
    (start : ℕ) (batch : List α) (hE : resp start = .ok batch)
    (hb : ¬ batch.length < 500) (hc : ¬ 50000 < start + 500) :
    fetchLoop pu pt resp start =
      (start :: (fetchLoop pu pt resp (start + 500)).1,
        (fetchLoop pu pt resp (start + 500)).2.map
          (fun tail => batch ++ tail)) := by
  rw [fetchLoop_eq, hE]
  simp only [if_neg hb, dif_neg hc]

/-- Request budget: starting at an offset within the ceiling, the number
of issued page requests is bounded — whatever the upstream does. -/
theorem fetchLoop_requests_bound {α : Type} (pu pt : String)
    (resp : ℕ → PageResp α) (start : ℕ) (h : start ≤ 50000) :
    500 * (fetchLoop pu pt resp start).1.length ≤ 50500 - start := by
  cases hE : resp start with
  | netfail => rw [fetchLoop_netfail pu pt resp start hE]; simp; omega
  | err code => rw [fetchLoop_err pu pt resp start code hE]; simp; omega
  | ok batch =>
    by_cases hb : batch.length < 500
    · rw [fetchLoop_stop_short pu pt resp start batch hE hb]; simp; omega
    · by_cases hc : 50000 < start + 500
      · rw [fetchLoop_stop_ceiling pu pt resp start batch hE hb hc]
        simp; omega
      · rw [fetchLoop_cont pu pt resp start batch hE hb hc]
        have hrec := fetchLoop_requests_bound pu pt resp (start + 500)
          (by omega)
        simp only [List.length_cons]
        omega
termination_by 50500 - start
decreasing_by omega

/-- Every offset the loop requests stays within the 50000 safety
ceiling. -/
theorem fetchLoop_offsets_le {α : Type} (pu pt : String)
    (resp : ℕ → PageResp α) (start : ℕ) (h : start ≤ 50000) :
    ∀ o ∈ (fetchLoop pu pt resp start).1, o ≤ 50000 := by
  intro o ho
  cases hE : resp start with
  | netfail =>
    rw [fetchLoop_netfail pu pt resp start hE] at ho
    simp at ho; omega
  | err code =>
    rw [fetchLoop_err pu pt resp start code hE] at ho
    simp at ho; omega
  | ok batch =>
    by_cases hb : batch.length < 500
    · rw [fetchLoop_stop_short pu pt resp start batch hE hb] at ho
      simp at ho; omega
    · by_cases hc : 50000 < start + 500
      · rw [fetchLoop_stop_ceiling pu pt resp start batch hE hb hc] at ho
        simp at ho; omega
      · rw [fetchLoop_cont pu pt resp start batch hE hb hc] at ho
        simp only [List.mem_cons] at ho
        rcases ho with rfl | ho
        · exact h
        · exact fetchLoop_offsets_le pu pt resp (start + 500) (by omega) o ho
termination_by 50500 - start
decreasing_by omega

/-- If the pages at offsets `500*0 … 500*(k-1)` are full and the page at
`500*k` is short (fewer than 500 items), the loop started at `500*i`
(`i ≤ k`) requests exactly the offsets `500*i … 500*k` — it stops at the
first short page. -/
theorem fetchLoop_first_short {α : Type} (pu pt : String)
    (pages : ℕ → List α) (k : ℕ) (hk : 500 * k ≤ 50000)
    (hfull : ∀ j, j < k → 500 ≤ (pages (500 * j)).length)
    (hshort : (pages (500 * k)).length < 500) (i : ℕ) (hi : i ≤ k) :
    (fetchLoop pu pt (okResp pages) (500 * i)).1 =
      (List.range' i (k + 1 - i)).map (fun j => 500 * j) := by
  by_cases hik : i = k
  · subst hik
    rw [fetchLoop_stop_short pu pt (okResp pages) (500 * i) (pages (500 * i))
      rfl hshort]
    have h1 : i + 1 - i = 1 := by omega
    rw [h1, List.range'_one, List.map_singleton]
  · have hlt : i < k := lt_of_le_of_ne hi hik
    have h1 : ¬ ((pages (500 * i)).length < 500) := by
      have := hfull i hlt; omega
    have h2 : ¬ (50000 < 500 * i + 500) := by omega
    rw [fetchLoop_cont pu pt (okResp pages) (500 * i) (pages (500 * i)) rfl
      h1 h2]
    have hrw : 500 * i + 500 = 500 * (i + 1) := by ring
    rw [hrw, fetchLoop_first_short pu pt pages k hk hfull hshort (i + 1)
      (by omega)]
    have h3 : k + 1 - i = (k - i) + 1 := by omega
    have h4 : k + 1 - (i + 1) = k - i := by omega
    rw [h3, h4, List.range'_succ, List.map_cons]
termination_by k - i
decreasing_by omega

/-- If every page up to the ceiling is full, the loop started at `500*i`
(`i ≤ 100`) requests exactly the offsets `500*i … 50000` — a misbehaving
upstream that always answers full pages is stopped by the 50000 safety
guard after the request at offset 50000. -/
theorem fetchLoop_all_full {α : Type} (pu pt : String) (pages : ℕ → List α)
    (hfull : ∀ j, j ≤ 100 → 500 ≤ (pages (500 * j)).length) (i : ℕ)
    (hi : i ≤ 100) :
    (fetchLoop pu pt (okResp pages) (500 * i)).1 =
      (List.range' i (101 - i)).map (fun j => 500 * j) := by
  have h1 : ¬ ((pages (500 * i)).length < 500) := by
    have := hfull i hi; omega
  by_cases hik : i = 100
  · rw [fetchLoop_stop_ceiling pu pt (okResp pages) (500 * i)
      (pages (500 * i)) rfl h1 (by omega)]
    have h3 : 101 - i = 1 := by omega
    rw [h3, List.range'_one, List.map_singleton]
  · have hlt : i < 100 := lt_of_le_of_ne hi hik
    have h2 : ¬ (50000 < 500 * i + 500) := by omega
    rw [fetchLoop_cont pu pt (okResp pages) (500 * i) (pages (500 * i)) rfl
      h1 h2]
    have hrw : 500 * i + 500 = 500 * (i + 1) := by ring
    rw [hrw, fetchLoop_all_full pu pt pages hfull (i + 1) (by omega)]
    have h3 : 101 - i = (100 - i) + 1 := by omega
    have h4 : 101 - (i + 1) = 100 - i := by omega
    rw [h3, h4, List.range'_succ, List.map_cons]
termination_by 100 - i
decreasing_by omega

/-! ### C2 — termination of the paged catalog fetch -/

/-- **C2.** For every upstream behaviour the paging loop terminates: with
pages full up to a first short page at offset `500*k` (including a 0-item
page after an exact multiple of 500) it requests exactly the offsets
`0, 500, …, 500*k` and stops; with an upstream that always answers full
pages it requests exactly `0, 500, …, 50000` and is stopped by the safety
ceiling; and for any upstream at all it issues at most 101 requests, all
at offsets within the ceiling. -/
theorem fetchLoop_terminates {α : Type} (pu pt : String)
    (pages pagesF : ℕ → List α) (resp : ℕ → PageResp α) (k : ℕ)
    (hk : 500 * k ≤ 50000)
    (hfull : ∀ j, j < k → 500 ≤ (pages (500 * j)).length)
    (hshort : (pages (500 * k)).length < 500)
    (hF : ∀ j, j ≤ 100 → 500 ≤ (pagesF (500 * j)).length) :
    (fetchLoop pu pt (okResp pages) 0).1 =
      (List.range (k + 1)).map (fun j => 500 * j) ∧
    (fetchLoop pu pt (okResp pagesF) 0).1 =
      (List.range 101).map (fun j => 500 * j) ∧
    (fetchLoop pu pt resp 0).1.length ≤ 101 ∧
    (∀ o ∈ (fetchLoop pu pt resp 0).1, o ≤ 50000) := by
  refine ⟨?_, ?_, ?_, ?_⟩
  · have h := fetchLoop_first_short pu pt pages k hk hfull hshort 0
      (Nat.zero_le k)
    rw [List.range_eq_range']
    simpa using h
  · have h := fetchLoop_all_full pu pt pagesF hF 0 (by omega)
    rw [List.range_eq_range']
    simpa using h
  · have h := fetchLoop_requests_bound pu pt resp 0 (by omega)
    omega
  · exact fetchLoop_offsets_le pu pt resp 0 (by omega)

/-- C2 witness upstream: a catalog of exactly 1000 items — two full pages,
then an empty page (the exact-multiple-of-500 case). -/
def twoFullPages : ℕ → List ℕ :=
  fun o => if o < 1000 then List.replicate 500 0 else []

/-- C2 witness upstream: a misbehaving upstream that always answers a full
page. -/
def alwaysFull : ℕ → List ℕ :=
  fun _ => List.replicate 500 0

/-- Witness for C2 at the concrete upstreams `twoFullPages` (exact multiple
of the page size, short page = empty) and `alwaysFull` (stopped by the
ceiling). -/
theorem fetchLoop_terminates_witness :
    (500 * 2 ≤ 50000) ∧
    ((fetchLoop "" "" (okResp twoFullPages) 0).1 =
      (List.range (2 + 1)).map (fun j => 500 * j) ∧
     (fetchLoop "" "" (okResp alwaysFull) 0).1 =
      (List.range 101).map (fun j => 500 * j) ∧
     (fetchLoop "" "" (okResp alwaysFull) 0).1.length ≤ 101 ∧
     (∀ o ∈ (fetchLoop "" "" (okResp alwaysFull) 0).1, o ≤ 50000)) :=
  ⟨by norm_num,
   fetchLoop_terminates "" "" twoFullPages alwaysFull (okResp alwaysFull) 2
     (by norm_num)
     (by
       intro j hj
       interval_cases j <;> norm_num [twoFullPages, List.length_replicate])
     (by norm_num [twoFullPages])
     (by
       intro j hj
       norm_num [alwaysFull, List.length_replicate])⟩

/-! ### C5 — error mapping of the catalog page fetch -/

/-- **C5.** A page request answered 401 fails the fetch with `AuthFailed`;
404 with `SectionNotFound`; 400 with a missing Plex URL or token with
`ConfigIncomplete`; any status ≥ 500 with `UpstreamFailure`; and a
transport-level failure with `ConnectivityFailure`. -/
theorem fetch_error_mapping {α : Type} (pu pt pu2 pt2 : String)
    (r1 r2 r3 r4 r5 : ℕ → PageResp α) (start c : ℕ)
    (h1 : r1 start = .err 401) (h2 : r2 start = .err 404)
    (h3 : r3 start = .err 400) (hmiss : pu2 = "" ∨ pt2 = "")
    (h4 : r4 start = .err c) (hc : 500 ≤ c)
    (h5 : r5 start = .netfail) :
    (fetchLoop pu pt r1 start).2 = .error .AuthFailed ∧
    (fetchLoop pu pt r2 start).2 = .error .SectionNotFound ∧
    (fetchLoop pu2 pt2 r3 start).2 = .error .ConfigIncomplete ∧
    (fetchLoop pu pt r4 start).2 = .error .UpstreamFailure ∧
    (fetchLoop pu pt r5 start).2 = .error .ConnectivityFailure := by
  refine ⟨?_, ?_, ?_, ?_, ?_⟩
  · rw [fetchLoop_eq, h1]; simp [statusErr]
  · rw [fetchLoop_eq, h2]; simp [statusErr]
  · rw [fetchLoop_err pu2 pt2 r3 start 400 h3]
    have hs : statusErr pu2 pt2 400 = .ConfigIncomplete := by
      unfold statusErr
      rw [if_neg (by norm_num), if_neg (by norm_num), if_pos rfl,
        if_pos hmiss]
    rw [hs]
  · rw [fetchLoop_eq, h4]
    have hn1 : c ≠ 401 := by omega
    have hn2 : c ≠ 404 := by omega
    have hn3 : c ≠ 400 := by omega
    simp [statusErr, hn1, hn2, hn3, hc]
  · rw [fetchLoop_eq, h5]

/-- Witness for C5 at concrete failing upstreams. -/
theorem fetch_error_mapping_witness :
    ((fun _ : ℕ => PageResp.err (α := ℕ) 401) 0 = PageResp.err 401) ∧
    ((fetchLoop "http://plex:32400" "tok"
        (fun _ => PageResp.err (α := ℕ) 401) 0).2 = .error .AuthFailed ∧
     (fetchLoop "http://plex:32400" "tok"
        (fun _ => PageResp.err (α := ℕ) 404) 0).2 = .error .SectionNotFound ∧
     (fetchLoop "" "tok"
        (fun _ => PageResp.err (α := ℕ) 400) 0).2 = .error .ConfigIncomplete ∧
     (fetchLoop "http://plex:32400" "tok"
        (fun _ => PageResp.err (α := ℕ) 503) 0).2 = .error .UpstreamFailure ∧
     (fetchLoop "http://plex:32400" "tok"
        (fun _ => PageResp.netfail (α := ℕ)) 0).2 =
      .error .ConnectivityFailure) :=
  ⟨rfl,
   fetch_error_mapping "http://plex:32400" "tok" "" "tok"
     (fun _ => PageResp.err 401) (fun _ => PageResp.err 404)
     (fun _ => PageResp.err 400) (fun _ => PageResp.err 503)
     (fun _ => PageResp.netfail) 0 503
     rfl rfl rfl (Or.inl rfl) rfl (by norm_num) rfl⟩

/-! ### C6 — empty catalog is an error and rotation never starts -/

/-- **C6.** When paging completes successfully with zero accumulated items,
`fetchItems` fails with `EmptyCatalog`; the boot path then surfaces the
error without ever calling `startRotation`, leaving no rotation timer
outstanding; and `startRotation` itself is a no-op on an empty list. -/
theorem emptyCatalog_error {α : Type} (pu pt : String)
    (resp : ℕ → PageResp α) (h : (fetchLoop pu pt resp 0).2 = .ok [])
    (autoDim : Bool) (base : String) (bright : String → ℚ)
    (shuffle : List CatalogItem → List CatalogItem)
    (resp2 : ℕ → PageResp CatalogItem)
    (h2 : (fetchLoop pu pt resp2 0).2 = .ok [])
    (s : AppState) (hs : s.timers.active = []) :
    fetchItems pu pt resp = .error .EmptyCatalog ∧
    (bootInit pu pt resp2 autoDim base bright shuffle s).1.timers.active =
      [] ∧
    (∀ s2 : AppState,
      startRotation autoDim base bright shuffle [] s2 = s2) := by
  have hfi2 : fetchItems pu pt resp2 = .error .EmptyCatalog := by
    unfold fetchItems
    rw [h2]
    simp
  refine ⟨?_, ?_, ?_⟩
  · unfold fetchItems
    rw [h]
    simp
  · unfold bootInit
    rw [hfi2]
    exact hs
  · intro s2
    unfold startRotation
    simp

/-- C6 witness upstream over plain items: first page empty. -/
def emptyUpstream : ℕ → PageResp ℕ := fun _ => PageResp.ok []

/-- C6 witness upstream over catalog items: first page empty. -/
def emptyUpstreamC : ℕ → PageResp CatalogItem := fun _ => PageResp.ok []

/-- Witness for C6: an upstream whose every page is empty. -/
theorem emptyCatalog_error_witness :
    ((fetchLoop "" "" emptyUpstreamC 0).2 = Except.ok ([] : List CatalogItem)) ∧
    (fetchItems "" "" emptyUpstream = Except.error FetchErr.EmptyCatalog ∧
     (bootInit "" "" emptyUpstreamC false "" (fun _ => 0) id
        initAppState).1.timers.active = [] ∧
     startRotation false "" (fun _ => 0) id [] initAppState = initAppState) := by
  have hE : (fetchLoop "" "" emptyUpstream 0).2 = Except.ok ([] : List ℕ) := by
    simp [fetchLoop, emptyUpstream]
  have hEC : (fetchLoop "" "" emptyUpstreamC 0).2 =
      Except.ok ([] : List CatalogItem) := by
    simp [fetchLoop, emptyUpstreamC]
  have h := emptyCatalog_error "" "" emptyUpstream hE false "" (fun _ => 0) id
    emptyUpstreamC hEC initAppState rfl
  exact ⟨hEC, h.1, h.2.1, h.2.2 initAppState⟩

end PosterWall
